import Mathlib

/-!
Shallow embedding of `src/server/utils/load_dataset.py` (class
`RobotLearningDataset`): data model, loading, tabular projection,
statistics, filtering and train/test splitting, with theorems checking
the specification's claims against this embedding.

Conventions of the embedding:
* Python dicts that serve as records become Lean structures; dicts built
  incrementally by key assignment become ordered association lists with
  Python's replace-or-append assignment semantics.  The row dict's
  colliding keyspace — the `label_count` column and the dynamic
  `label_<label_type>` columns — is kept as one such list, so a label of
  type `count` overwrites the count, as in the source.
* The filesystem touched by the load operations is an explicit
  association list from path strings to parsed JSON documents.
* `pd.to_datetime` parsing is opaque to every claim, so the timestamp
  column keeps the textual value.
* Machine floats returned by the statistics averages are modelled as
  exact rationals; the guards against division by zero are translated
  verbatim.
-/

namespace Robosite

/-- A label annotation attached to a message: a type discriminator and an
opaque data payload (modelled as a string). -/
structure Label where
  label_type : String
  label_data : String
deriving DecidableEq, Repr

/-- One interaction event inside a session, as read from a session export
JSON document.  `video_frame_id` and `labels` are the optional fields
(`item.get('video_frame_id')`, `item.get('labels', [])`). -/
structure Message where
  id : String
  command : String
  sender : String
  timestamp : String
  video_frame_id : Option String
  labels : List Label
deriving DecidableEq, Repr

/-- Opaque session metadata mapping, passed through unmodified. -/
abbrev Info := List (String × String)

/-- One loaded session: the dict
`{'session_id': ..., 'data': ..., 'info': ...}` appended by
`load_session`. -/
structure Session where
  session_id : String
  data : List Message
  info : Info
deriving DecidableEq, Repr

/-- The loader/aggregator state: the constructor stores the data
directory and starts with an empty session list. -/
structure RobotLearningDataset where
  data_dir : String
  sessions : List Session
deriving DecidableEq, Repr

/-- Python dict assignment `d[k] = v` on an ordered association list:
replace the value in place when the key is present, append otherwise. -/
def dictInsert {β : Type} (d : List (String × β)) (k : String) (v : β) : List (String × β) :=
  match d with
  | [] => [(k, v)]
  | (k0, v0) :: rest => if k0 == k then (k0, v) :: rest else (k0, v0) :: dictInsert rest k v

/-- Python dict lookup `d.get(k)` on an ordered association list. -/
def lookupCol {β : Type} (d : List (String × β)) (k : String) : Option β :=
  match d with
  | [] => none
  | (k0, v) :: rest => if k0 == k then some v else lookupCol rest k

/-- A value of the row dict's label keyspace: the integer written by
`row['label_count'] = len(labels)`, or the opaque `label_data` written by
a `row[f'label_{label_type}'] = ...` assignment. -/
inductive Cell where
  | countVal (n : Nat)
  | dataVal (s : String)
deriving DecidableEq, Repr

lemma label_key_take (t : String) : ("label_" ++ t).data.take 6 = "label_".data := by
  rw [String.data_append, List.take_append_of_le_length (by decide)]
  decide

/-- No dynamic `label_<label_type>` key can name one of the six fixed
columns of the row dict literal: every dynamic key starts with the six
characters `label_` and none of the fixed keys does. -/
lemma label_key_ne_fixed (t : String) :
    "label_" ++ t ≠ "session_id" ∧ "label_" ++ t ≠ "message_id" ∧
    "label_" ++ t ≠ "command" ∧ "label_" ++ t ≠ "sender" ∧
    "label_" ++ t ≠ "timestamp" ∧ "label_" ++ t ≠ "video_frame_id" := by
  have hk := label_key_take t
  refine ⟨?_, ?_, ?_, ?_, ?_, ?_⟩ <;>
    (intro h; rw [h] at hk; revert hk; decide)

/-- The row built for one message by `to_dataframe`.  In the source the
row is a single dict; its keys split into two disjoint keyspaces: the six
columns of the dict literal, which no later `label_…` assignment can name
(`label_key_ne_fixed`), kept as structure fields, and the colliding
keyspace — the `label_count` column and the data-driven
`label_<label_type>` columns, where a label of type `count` names and
overwrites the `label_count` key — kept as one dict. -/
structure Row where
  session_id : String
  message_id : String
  command : String
  sender : String
  timestamp : String
  video_frame_id : Option String
  label_cells : List (String × Cell)
deriving DecidableEq, Repr

/-- The row dict built inside the `to_dataframe` loop for one message:
the six-key dict literal, then `row['label_count'] = len(labels)`, then
one `row[f'label_{label_type}'] = label['label_data']` assignment per
label, in label order, on the same dict. -/
def messageToRow (sid : String) (item : Message) : Row :=
  { session_id := sid
    message_id := item.id
    command := item.command
    sender := item.sender
    timestamp := item.timestamp
    video_frame_id := item.video_frame_id
    label_cells := item.labels.foldl
      (fun d label =>
        dictInsert d ("label_" ++ label.label_type) (Cell.dataVal label.label_data))
      (dictInsert [] "label_count" (Cell.countVal item.labels.length)) }

/-- `to_dataframe`: the nested `for session / for item` loops appending
one row per message to the `rows` accumulator. -/
def RobotLearningDataset.to_dataframe (ds : RobotLearningDataset) : List Row :=
  ds.sessions.foldl
    (fun rows session =>
      session.data.foldl
        (fun rows item => rows ++ [messageToRow session.session_id item]) rows)
    []

lemma foldl_append_map {α β : Type} (f : α → β) :
    ∀ (l : List α) (acc : List β),
      l.foldl (fun rows m => rows ++ [f m]) acc = acc ++ l.map f := by
  intro l
  induction l with
  | nil => intro acc; simp
  | cons x xs ih =>
      intro acc
      simp [List.foldl_cons, ih]

lemma to_dataframe_foldl_eq (sessions : List Session) :
    ∀ acc : List Row,
      sessions.foldl
        (fun rows session =>
          session.data.foldl
            (fun rows item => rows ++ [messageToRow session.session_id item]) rows)
        acc
      = acc ++ sessions.flatMap (fun s => s.data.map (messageToRow s.session_id)) := by
  induction sessions with
  | nil => intro acc; simp
  | cons s ss ih =>
      intro acc
      rw [List.foldl_cons, foldl_append_map, ih, List.flatMap_cons, List.append_assoc]

/-- The tabular projection is the in-order flattening: one row per
message, sessions in held order, messages in session order. -/
lemma to_dataframe_eq_flatMap (ds : RobotLearningDataset) :
    ds.to_dataframe = ds.sessions.flatMap (fun s => s.data.map (messageToRow s.session_id)) := by
  simpa [RobotLearningDataset.to_dataframe] using to_dataframe_foldl_eq ds.sessions []

/-- C1: for every loaded collection, the tabular projection contains
exactly one row per message — its row count equals the sum of message
counts across all held sessions — and rows appear in session order, then
message order within each session (it is the in-order flattening of the
held sessions). -/
theorem to_dataframe_row_count_and_order (ds : RobotLearningDataset) :
    ds.to_dataframe = ds.sessions.flatMap (fun s => s.data.map (messageToRow s.session_id)) ∧
    ds.to_dataframe.length = (ds.sessions.map (fun s => s.data.length)).sum := by
  refine ⟨to_dataframe_eq_flatMap ds, ?_⟩
  rw [to_dataframe_eq_flatMap ds]
  simp [List.length_flatMap, Function.comp_def, List.length_map]

/-- Python `senders[sender] = senders.get(sender, 0) + 1` on a dict as an
ordered association list. -/
def bumpCount (d : List (String × Nat)) (k : String) : List (String × Nat) :=
  match d with
  | [] => [(k, 1)]
  | (k0, v0) :: rest => if k0 == k then (k0, v0 + 1) :: rest else (k0, v0) :: bumpCount rest k

/-- Python `d.get(k, 0)` on a dict as an ordered association list. -/
def lookupCount (d : List (String × Nat)) (k : String) : Nat :=
  match d with
  | [] => 0
  | (k0, v) :: rest => if k0 == k then v else lookupCount rest k

/-- The dict returned by `get_statistics`. -/
structure Statistics where
  total_sessions : Nat
  total_messages : Nat
  total_labels : Nat
  messages_by_sender : List (String × Nat)
  avg_messages_per_session : ℚ
  avg_labels_per_message : ℚ
deriving DecidableEq, Repr

/-- `get_statistics`: `total_messages = sum(len(s['data']) ...)`, then one
nested loop accumulating the `senders` dict and `total_labels` together,
then the result dict with the two zero-guarded averages (floats modelled
as exact rationals). -/
def RobotLearningDataset.get_statistics (ds : RobotLearningDataset) : Statistics :=
  let total_messages := (ds.sessions.map (fun s => s.data.length)).sum
  let st := ds.sessions.foldl
    (fun st session =>
      session.data.foldl
        (fun st item => (bumpCount st.1 item.sender, st.2 + item.labels.length)) st)
    (([], 0) : List (String × Nat) × Nat)
  { total_sessions := ds.sessions.length
    total_messages := total_messages
    total_labels := st.2
    messages_by_sender := st.1
    avg_messages_per_session :=
      if ds.sessions.isEmpty then 0 else (total_messages : ℚ) / (ds.sessions.length : ℚ)
    avg_labels_per_message :=
      if total_messages = 0 then 0 else (st.2 : ℚ) / (total_messages : ℚ) }

lemma lookupCount_bumpCount (k q : String) :
    ∀ d : List (String × Nat),
      lookupCount (bumpCount d k) q =
        if q = k then lookupCount d q + 1 else lookupCount d q := by
  intro d
  induction d with
  | nil =>
      by_cases h : q = k
      · subst h; simp [bumpCount, lookupCount]
      · have hk : (k == q) = false := beq_eq_false_iff_ne.mpr (fun e => h e.symm)
        simp [bumpCount, lookupCount, hk, h]
  | cons kv rest ih =>
      obtain ⟨k0, v0⟩ := kv
      by_cases h0 : k0 = k
      · subst h0
        have hb : bumpCount ((k0, v0) :: rest) k0 = (k0, v0 + 1) :: rest := by
          simp [bumpCount]
        rw [hb]
        by_cases hq : q = k0
        · subst hq; simp [lookupCount]
        · have hk : (k0 == q) = false := beq_eq_false_iff_ne.mpr (fun e => hq e.symm)
          simp [lookupCount, hk, hq]
      · have hne : (k0 == k) = false := beq_eq_false_iff_ne.mpr h0
        have hb : bumpCount ((k0, v0) :: rest) k = (k0, v0) :: bumpCount rest k := by
          simp [bumpCount, hne]
        rw [hb]
        by_cases hq : k0 = q
        · have hbe : (k0 == q) = true := beq_iff_eq.mpr hq
          have hqk : ¬ q = k := fun e => h0 (hq.trans e)
          simp [lookupCount, hbe, hqk]
        · have hbe : (k0 == q) = false := beq_eq_false_iff_ne.mpr hq
          simp [lookupCount, hbe, ih]

lemma stats_foldl_pair (msgs : List Message) :
    ∀ (d : List (String × Nat)) (n : Nat),
      msgs.foldl (fun st item => (bumpCount st.1 item.sender, st.2 + item.labels.length)) (d, n)
      = (msgs.foldl (fun d item => bumpCount d item.sender) d,
         n + (msgs.map (fun m => m.labels.length)).sum) := by
  induction msgs with
  | nil => intro d n; simp
  | cons m ms ih => intro d n; simp [List.foldl_cons, ih, Nat.add_assoc]

lemma foldl_sessions_flatMap {β : Type} (g : β → Message → β) :
    ∀ (l : List Session) (b : β),
      l.foldl (fun st session => session.data.foldl g st) b
      = (l.flatMap Session.data).foldl g b := by
  intro l
  induction l with
  | nil => intro b; simp
  | cons s ss ih => intro b; simp [List.foldl_cons, List.flatMap_cons, List.foldl_append, ih]

lemma sender_fold_lookup (q : String) :
    ∀ (msgs : List Message) (d : List (String × Nat)),
      lookupCount (msgs.foldl (fun d item => bumpCount d item.sender) d) q
      = lookupCount d q + msgs.countP (fun m => m.sender == q) := by
  intro msgs
  induction msgs with
  | nil => intro d; simp
  | cons m ms ih =>
      intro d
      rw [List.foldl_cons, ih, lookupCount_bumpCount, List.countP_cons]
      by_cases h : q = m.sender
      · have hbe : (m.sender == q) = true := beq_iff_eq.mpr h.symm
        rw [if_pos h, if_pos hbe]
        omega
      · have hbe : (m.sender == q) = false := beq_eq_false_iff_ne.mpr (fun e => h e.symm)
        rw [if_neg h, if_neg (by simp [hbe])]
        omega

/-- First message of the spec's statistics scenario: one `quality` label. -/
def exampleMsg1 : Message :=
  { id := "m1", command := "move forward", sender := "scientist",
    timestamp := "2024-01-01T00:00:00", video_frame_id := none,
    labels := [{ label_type := "quality", label_data := "good" }] }

/-- Second message of the spec's statistics scenario: no labels. -/
def exampleMsg2 : Message :=
  { id := "m2", command := "stop", sender := "robot",
    timestamp := "2024-01-01T00:00:01", video_frame_id := none,
    labels := [] }

/-- The two-message, one-label session `s1` from the spec's statistics
scenario. -/
def exampleS1 : Session :=
  { session_id := "s1"
    data := [exampleMsg1, exampleMsg2]
    info := [] }

/-- A collection holding only `exampleS1`. -/
def exampleS1Collection : RobotLearningDataset :=
  { data_dir := "../data", sessions := [exampleS1] }

/-- C2: `get_statistics` returns the session count, the message count
summed across sessions, the label count summed across all messages, a
sender-to-message-count mapping, and the two averages with their
zero-session / zero-message guards reporting 0; on the spec's concrete
scenario (one session, two messages, one label) it reports
`total_messages = 2`, `total_labels = 1`, `avg_labels_per_message = 0.5`. -/
theorem get_statistics_spec (ds : RobotLearningDataset) :
    (ds.get_statistics).total_sessions = ds.sessions.length ∧
    (ds.get_statistics).total_messages = (ds.sessions.map (fun s => s.data.length)).sum ∧
    (ds.get_statistics).total_labels
      = ((ds.sessions.flatMap Session.data).map (fun m => m.labels.length)).sum ∧
    (∀ q : String,
      lookupCount (ds.get_statistics).messages_by_sender q
        = (ds.sessions.flatMap Session.data).countP (fun m => m.sender == q)) ∧
    (ds.sessions = [] →
      (ds.get_statistics).avg_messages_per_session = 0 ∧
      (ds.get_statistics).avg_labels_per_message = 0) ∧
    (ds.sessions ≠ [] →
      (ds.get_statistics).avg_messages_per_session
        = ((ds.get_statistics).total_messages : ℚ) / (ds.sessions.length : ℚ)) ∧
    ((ds.get_statistics).total_messages = 0 →
      (ds.get_statistics).avg_labels_per_message = 0) ∧
    ((ds.get_statistics).total_messages ≠ 0 →
      (ds.get_statistics).avg_labels_per_message
        = ((ds.get_statistics).total_labels : ℚ) / ((ds.get_statistics).total_messages : ℚ)) ∧
    (exampleS1Collection.get_statistics).total_messages = 2 ∧
    (exampleS1Collection.get_statistics).total_labels = 1 ∧
    (exampleS1Collection.get_statistics).avg_labels_per_message = 1 / 2 := by
  have hpair :
      (ds.sessions.foldl
        (fun st session =>
          session.data.foldl
            (fun st item => (bumpCount st.1 item.sender, st.2 + item.labels.length)) st)
        (([], 0) : List (String × Nat) × Nat))
      = ((ds.sessions.flatMap Session.data).foldl (fun d item => bumpCount d item.sender) [],
         ((ds.sessions.flatMap Session.data).map (fun m => m.labels.length)).sum) := by
    rw [foldl_sessions_flatMap, stats_foldl_pair]
    simp
  refine ⟨rfl, rfl, ?_, ?_, ?_, ?_, ?_, ?_, by decide, by decide, ?_⟩
  · simp [RobotLearningDataset.get_statistics, hpair]
  · intro q
    simp [RobotLearningDataset.get_statistics, hpair, sender_fold_lookup, lookupCount]
  · intro h
    simp [RobotLearningDataset.get_statistics, h]
  · intro h
    simp [RobotLearningDataset.get_statistics, List.isEmpty_iff, h]
  · intro h
    simp only [RobotLearningDataset.get_statistics] at h ⊢
    simp [h]
  · intro h
    simp only [RobotLearningDataset.get_statistics] at h ⊢
    simp [h]
  · simp [RobotLearningDataset.get_statistics, exampleS1Collection, exampleS1,
      exampleMsg1, exampleMsg2, bumpCount]

/-- Witness for `get_statistics_spec` at the concrete one-session
collection. -/
theorem get_statistics_spec_witness :
    exampleS1Collection.sessions ≠ [] ∧
    (exampleS1Collection.get_statistics).avg_messages_per_session
      = ((exampleS1Collection.get_statistics).total_messages : ℚ)
          / (exampleS1Collection.sessions.length : ℚ) := by
  have h := get_statistics_spec exampleS1Collection
  exact ⟨by decide, h.2.2.2.2.2.1 (by decide)⟩

/-- `filter_by_sender`: the loop keeping, per session, the list
comprehension of messages whose sender equals the argument, appending a
new session dict only when that list is non-empty; the result is a new
`RobotLearningDataset` over the same data directory. -/
def RobotLearningDataset.filter_by_sender (ds : RobotLearningDataset) (sender : String) :
    RobotLearningDataset :=
  { data_dir := ds.data_dir
    sessions := ds.sessions.foldl
      (fun acc session =>
        let filtered_data := session.data.filter (fun item => item.sender == sender)
        if filtered_data.isEmpty then acc
        else acc ++ [{ session_id := session.session_id, data := filtered_data,
                       info := session.info }])
      [] }

/-- The per-message test of `filter_by_labels`: skip messages with an
empty label list (`if not labels: continue`); with no label type keep the
rest, with a label type keep those with `any(label['label_type'] ==
label_type ...)`. -/
def messageMatchesLabels (label_type : Option String) (item : Message) : Bool :=
  let labels := item.labels
  if labels.isEmpty then false
  else
    match label_type with
    | none => true
    | some t => labels.any (fun label => label.label_type == t)

/-- `filter_by_labels`: same shape as the sender filter, with the
label-presence/type test. -/
def RobotLearningDataset.filter_by_labels (ds : RobotLearningDataset)
    (label_type : Option String) : RobotLearningDataset :=
  { data_dir := ds.data_dir
    sessions := ds.sessions.foldl
      (fun acc session =>
        let filtered_data := session.data.filter (messageMatchesLabels label_type)
        if filtered_data.isEmpty then acc
        else acc ++ [{ session_id := session.session_id, data := filtered_data,
                       info := session.info }])
      [] }

lemma foldl_filterMap_helper (F : Session → List Message) :
    ∀ (l acc : List Session),
      l.foldl (fun acc s =>
          if (F s).isEmpty then acc
          else acc ++ [{ session_id := s.session_id, data := F s, info := s.info }]) acc
      = acc ++ l.filterMap (fun s =>
          if (F s).isEmpty then none
          else some { session_id := s.session_id, data := F s, info := s.info }) := by
  intro l
  induction l with
  | nil => intro acc; simp
  | cons s ss ih =>
      intro acc
      rw [List.foldl_cons]
      by_cases h : (F s).isEmpty
      · rw [if_pos h, ih, List.filterMap_cons, if_pos h]
      · rw [if_neg h, ih, List.filterMap_cons, if_neg h, List.append_assoc]
        rfl

/-- The sessions of the sender-filtered collection: keep each original
session whose filtered message list is non-empty, with the same id and
info and the filtered data. -/
lemma filter_by_sender_sessions (ds : RobotLearningDataset) (sender : String) :
    (ds.filter_by_sender sender).sessions
      = ds.sessions.filterMap (fun s =>
          if (s.data.filter (fun item => item.sender == sender)).isEmpty then none
          else some { session_id := s.session_id,
                      data := s.data.filter (fun item => item.sender == sender),
                      info := s.info }) :=
  (foldl_filterMap_helper (fun s => s.data.filter (fun item => item.sender == sender))
      ds.sessions []).trans (List.nil_append _)

/-- The sessions of the label-filtered collection, likewise. -/
lemma filter_by_labels_sessions (ds : RobotLearningDataset) (label_type : Option String) :
    (ds.filter_by_labels label_type).sessions
      = ds.sessions.filterMap (fun s =>
          if (s.data.filter (messageMatchesLabels label_type)).isEmpty then none
          else some { session_id := s.session_id,
                      data := s.data.filter (messageMatchesLabels label_type),
                      info := s.info }) :=
  (foldl_filterMap_helper (fun s => s.data.filter (messageMatchesLabels label_type))
      ds.sessions []).trans (List.nil_append _)

lemma filter_flatMap_rows (S : String) :
    ∀ l : List Session,
      ((l.flatMap (fun s => s.data.map (messageToRow s.session_id))).filter
          (fun r => r.sender == S)).length
      = (l.map (fun s => (s.data.filter (fun m => m.sender == S)).length)).sum := by
  intro l
  induction l with
  | nil => simp
  | cons s ss ih =>
      rw [List.flatMap_cons, List.filter_append, List.length_append, ih,
        List.map_cons, List.sum_cons]
      congr 1
      have hcomp : ((fun r : Row => r.sender == S) ∘ messageToRow s.session_id)
          = fun m : Message => m.sender == S := by
        funext m; rfl
      rw [List.filter_map, hcomp, List.length_map]

lemma filtered_sessions_length (F : Session → List Message) :
    ∀ l : List Session,
      ((l.filterMap (fun s =>
          if (F s).isEmpty then none
          else some ({ session_id := s.session_id, data := F s, info := s.info } : Session))).map
         (fun s => s.data.length)).sum
      = (l.map (fun s => (F s).length)).sum := by
  intro l
  induction l with
  | nil => simp
  | cons s ss ih =>
      rw [List.filterMap_cons]
      by_cases h : (F s).isEmpty
      · have h0 : F s = [] := by simpa using h
        rw [if_pos h, ih, List.map_cons, List.sum_cons, h0]
        simp
      · rw [if_neg h, List.map_cons, List.sum_cons, List.map_cons, List.sum_cons, ih]

/-- C3: `filter_by_sender S` keeps, for each original session with at
least one message from `S`, a new session with the same id and info and
exactly the matching messages, omitting zero-match sessions; every row of
the filtered tabular projection has sender `S`, and their count equals
the number of `sender == S` rows of the original projection. -/
theorem filter_by_sender_spec (ds : RobotLearningDataset) (S : String) :
    (ds.filter_by_sender S).sessions
      = ds.sessions.filterMap (fun s =>
          if (s.data.filter (fun item => item.sender == S)).isEmpty then none
          else some { session_id := s.session_id,
                      data := s.data.filter (fun item => item.sender == S),
                      info := s.info }) ∧
    (∀ row ∈ (ds.filter_by_sender S).to_dataframe, row.sender = S) ∧
    (ds.filter_by_sender S).to_dataframe.length
      = (ds.to_dataframe.filter (fun r => r.sender == S)).length := by
  refine ⟨filter_by_sender_sessions ds S, ?_, ?_⟩
  · intro row hrow
    rw [to_dataframe_eq_flatMap, filter_by_sender_sessions, List.mem_flatMap] at hrow
    obtain ⟨s', hs', hrow⟩ := hrow
    rw [List.mem_filterMap] at hs'
    obtain ⟨s, _, hif⟩ := hs'
    by_cases h : (s.data.filter (fun item => item.sender == S)).isEmpty
    · rw [if_pos h] at hif
      exact absurd hif (by simp)
    · rw [if_neg h] at hif
      have hx := Option.some.inj hif
      subst hx
      rw [List.mem_map] at hrow
      obtain ⟨m, hm, rfl⟩ := hrow
      rw [List.mem_filter] at hm
      have hmS : m.sender = S := by simpa using hm.2
      simpa [messageToRow] using hmS
  · have hL : (ds.filter_by_sender S).to_dataframe.length
        = (ds.sessions.map (fun s => (s.data.filter (fun m => m.sender == S)).length)).sum := by
      rw [to_dataframe_eq_flatMap, filter_by_sender_sessions]
      simp only [List.length_flatMap, Function.comp_def, List.length_map]
      exact filtered_sessions_length (fun s => s.data.filter (fun m => m.sender == S))
        ds.sessions
    have hR : (ds.to_dataframe.filter (fun r => r.sender == S)).length
        = (ds.sessions.map (fun s => (s.data.filter (fun m => m.sender == S)).length)).sum := by
      rw [to_dataframe_eq_flatMap]
      exact filter_flatMap_rows S ds.sessions
    rw [hL, hR]

/-- Witness for `filter_by_sender_spec` at the concrete collection. -/
theorem filter_by_sender_spec_witness :
    messageToRow "s1" exampleMsg1
        ∈ (exampleS1Collection.filter_by_sender "scientist").to_dataframe ∧
    (messageToRow "s1" exampleMsg1).sender = "scientist" := by
  have h := filter_by_sender_spec exampleS1Collection "scientist"
  exact ⟨by decide, h.2.1 _ (by decide)⟩

/-- C4: `filter_by_labels` keeps exactly the messages passing the
label-presence test — any label when no type is given, a label of the
given type otherwise — never keeps a message with no (matching) label,
and omits sessions with zero matching messages. -/
theorem filter_by_labels_spec (ds : RobotLearningDataset) (T : Option String) :
    (ds.filter_by_labels T).sessions
      = ds.sessions.filterMap (fun s =>
          if (s.data.filter (messageMatchesLabels T)).isEmpty then none
          else some { session_id := s.session_id,
                      data := s.data.filter (messageMatchesLabels T),
                      info := s.info }) ∧
    (∀ m : Message, messageMatchesLabels none m = !m.labels.isEmpty) ∧
    (∀ (t : String) (m : Message), messageMatchesLabels (some t) m
        = m.labels.any (fun label => label.label_type == t)) ∧
    (∀ session ∈ (ds.filter_by_labels T).sessions, session.data ≠ [] ∧
      ∀ m ∈ session.data,
        m.labels ≠ [] ∧ ∀ t : String, T = some t → ∃ l ∈ m.labels, l.label_type = t) := by
  refine ⟨filter_by_labels_sessions ds T, ?_, ?_, ?_⟩
  · intro m
    by_cases h : m.labels.isEmpty <;> simp [messageMatchesLabels, h]
  · intro t m
    by_cases h : m.labels.isEmpty <;> simp_all [messageMatchesLabels, List.isEmpty_iff]
  · intro session hs
    rw [filter_by_labels_sessions, List.mem_filterMap] at hs
    obtain ⟨s, _, hif⟩ := hs
    by_cases h : (s.data.filter (messageMatchesLabels T)).isEmpty
    · rw [if_pos h] at hif
      exact absurd hif (by simp)
    · rw [if_neg h] at hif
      have hx := Option.some.inj hif
      subst hx
      constructor
      · simpa [List.isEmpty_iff] using h
      · intro m hm
        rw [List.mem_filter] at hm
        have hmT : messageMatchesLabels T m = true := hm.2
        by_cases hl : m.labels.isEmpty
        · unfold messageMatchesLabels at hmT
          simp [hl] at hmT
        · refine ⟨by simpa [List.isEmpty_iff] using hl, ?_⟩
          intro t ht
          subst ht
          unfold messageMatchesLabels at hmT
          simp only [hl, Bool.false_eq_true, if_false] at hmT
          rw [List.any_eq_true] at hmT
          obtain ⟨l, hlmem, hlt⟩ := hmT
          exact ⟨l, hlmem, by simpa using hlt⟩

/-- Witness for `filter_by_labels_spec` at the concrete collection. -/
theorem filter_by_labels_spec_witness :
    ({ session_id := "s1", data := [exampleMsg1], info := [] } : Session)
        ∈ (exampleS1Collection.filter_by_labels none).sessions ∧
    ({ session_id := "s1", data := [exampleMsg1], info := [] } : Session).data ≠ [] := by
  have h := filter_by_labels_spec exampleS1Collection none
  exact ⟨by decide, (h.2.2.2 _ (by decide)).1⟩

/-- Execution model of `filter_by_sender` with the receiver threaded
explicitly through the loop: the loop body only ever appends to the new
collection's session list, so the first state component (the receiver)
passes through unchanged.  Returns (result, receiver after the call). -/
def RobotLearningDataset.filter_by_sender_run (ds : RobotLearningDataset) (sender : String) :
    RobotLearningDataset × RobotLearningDataset :=
  let st := ds.sessions.foldl
    (fun st session =>
      let filtered_data := session.data.filter (fun item => item.sender == sender)
      if filtered_data.isEmpty then st
      else (st.1, { data_dir := st.2.data_dir,
                    sessions := st.2.sessions ++
                      [{ session_id := session.session_id, data := filtered_data,
                         info := session.info }] }))
    (ds, { data_dir := ds.data_dir, sessions := [] })
  (st.2, st.1)

/-- Execution model of `filter_by_labels`, as for the sender filter. -/
def RobotLearningDataset.filter_by_labels_run (ds : RobotLearningDataset)
    (label_type : Option String) : RobotLearningDataset × RobotLearningDataset :=
  let st := ds.sessions.foldl
    (fun st session =>
      let filtered_data := session.data.filter (messageMatchesLabels label_type)
      if filtered_data.isEmpty then st
      else (st.1, { data_dir := st.2.data_dir,
                    sessions := st.2.sessions ++
                      [{ session_id := session.session_id, data := filtered_data,
                         info := session.info }] }))
    (ds, { data_dir := ds.data_dir, sessions := [] })
  (st.2, st.1)

lemma filter_run_foldl (p : Message → Bool) :
    ∀ (l : List Session) (a b : RobotLearningDataset),
      l.foldl
        (fun st session =>
          if (session.data.filter p).isEmpty then st
          else (st.1, { data_dir := st.2.data_dir,
                        sessions := st.2.sessions ++
                          [{ session_id := session.session_id,
                             data := session.data.filter p, info := session.info }] }))
        (a, b)
      = (a, { data_dir := b.data_dir,
              sessions := l.foldl
                (fun acc session =>
                  if (session.data.filter p).isEmpty then acc
                  else acc ++ [{ session_id := session.session_id,
                                 data := session.data.filter p, info := session.info }])
                b.sessions }) := by
  intro l
  induction l with
  | nil => intro a b; rfl
  | cons s ss ih =>
      intro a b
      rw [List.foldl_cons, List.foldl_cons]
      by_cases h : (s.data.filter p).isEmpty
      · rw [if_pos h, if_pos h, ih]
      · rw [if_neg h, if_neg h, ih]

/-- C5: both filters leave the original aggregator untouched — threading
the receiver through the loop returns it unchanged — and the value they
return is the fresh filtered collection. -/
theorem filters_do_not_mutate (ds : RobotLearningDataset) (S : String) (T : Option String) :
    (ds.filter_by_sender_run S).2 = ds ∧
    (ds.filter_by_sender_run S).1 = ds.filter_by_sender S ∧
    (ds.filter_by_labels_run T).2 = ds ∧
    (ds.filter_by_labels_run T).1 = ds.filter_by_labels T := by
  have hs := filter_run_foldl (fun item => item.sender == S) ds.sessions ds
    { data_dir := ds.data_dir, sessions := [] }
  have hl := filter_run_foldl (messageMatchesLabels T) ds.sessions ds
    { data_dir := ds.data_dir, sessions := [] }
  exact ⟨congrArg Prod.fst hs, congrArg Prod.snd hs,
    congrArg Prod.fst hl, congrArg Prod.snd hl⟩

/-- A parsed JSON document on disk: either a session export
(`{"data": [...], "info": {...}}`) or the manifest
(`{"sessions": [...]}`, kept as its list of session ids). -/
inductive FileJson where
  | sessionDoc (data : List Message) (info : Info)
  | manifestDoc (sessions : List String)
deriving DecidableEq, Repr

/-- The filesystem visible to the loader: paths mapped to parsed JSON
documents; a path not in the list does not exist. -/
abbrev FileSystem := List (String × FileJson)

/-- Path lookup / existence test on the modelled filesystem. -/
def fsLookup (fs : FileSystem) (path : String) : Option FileJson :=
  match fs with
  | [] => none
  | (p, j) :: rest => if p == path then some j else fsLookup rest path

/-- The errors the load operations raise: `FileNotFoundError` with its
message, or a `KeyError` for a JSON document lacking an expected key. -/
inductive LoadError where
  | fileNotFound (message : String)
  | keyError (key : String)
deriving DecidableEq, Repr

/-- `self.exports_dir = self.data_dir / 'exports'`. -/
def exportsDir (data_dir : String) : String := data_dir ++ "/exports"

/-- `self.exports_dir / f'{session_id}_huggingface.json'`. -/
def sessionFilePath (data_dir session_id : String) : String :=
  exportsDir data_dir ++ "/" ++ session_id ++ "_huggingface.json"

/-- `self.exports_dir / 'dataset_manifest.json'`. -/
def manifestFilePath (data_dir : String) : String :=
  exportsDir data_dir ++ "/dataset_manifest.json"

/-- `load_session`: if the session export path does not exist, raise
`FileNotFoundError` naming the path — before any mutation; otherwise
parse the document, read `data` and `info` (a manifest-shaped document
raises `KeyError`), and append the new session dict.  The pair returned
is (outcome, receiver after the call). -/
def RobotLearningDataset.load_session (ds : RobotLearningDataset) (fs : FileSystem)
    (session_id : String) : Except LoadError Unit × RobotLearningDataset :=
  let session_file := sessionFilePath ds.data_dir session_id
  match fsLookup fs session_file with
  | none =>
      (Except.error (LoadError.fileNotFound ("Session export not found: " ++ session_file)), ds)
  | some (FileJson.manifestDoc _) => (Except.error (LoadError.keyError "data"), ds)
  | some (FileJson.sessionDoc data info) =>
      (Except.ok (),
        { ds with sessions := ds.sessions ++
            [{ session_id := session_id, data := data, info := info }] })

/-- The `for session in manifest['sessions']` loop of
`load_from_manifest`: try each id, catching only the not-found failure as
a printed warning and continuing; any other error propagates. -/
def loadManifestLoop (fs : FileSystem) :
    RobotLearningDataset → List String → List String →
      Except LoadError (List String) × RobotLearningDataset
  | ds, [], warnings => (Except.ok warnings, ds)
  | ds, sid :: rest, warnings =>
      match ds.load_session fs sid with
      | (Except.ok _, ds2) => loadManifestLoop fs ds2 rest warnings
      | (Except.error (LoadError.fileNotFound _), ds2) =>
          loadManifestLoop fs ds2 rest
            (warnings ++ ["Warning: Could not load session " ++ sid])
      | (Except.error e, ds2) => (Except.error e, ds2)

/-- `load_from_manifest`: a missing manifest file raises
`FileNotFoundError` (fatal); otherwise read its `sessions` list and run
the per-entry loop. -/
def RobotLearningDataset.load_from_manifest (ds : RobotLearningDataset) (fs : FileSystem) :
    Except LoadError (List String) × RobotLearningDataset :=
  let manifest_file := manifestFilePath ds.data_dir
  match fsLookup fs manifest_file with
  | none =>
      (Except.error (LoadError.fileNotFound ("Dataset manifest not found: " ++ manifest_file)), ds)
  | some (FileJson.sessionDoc _ _) => (Except.error (LoadError.keyError "sessions"), ds)
  | some (FileJson.manifestDoc ids) => loadManifestLoop fs ds ids []

/-- No session path listed in the manifest resolves to a manifest-shaped
document (which would abort the loop with a `KeyError` instead of a
warning). -/
def wellFormedSessionFiles (fs : FileSystem) (data_dir : String) (ids : List String) : Bool :=
  ids.all (fun sid =>
    match fsLookup fs (sessionFilePath data_dir sid) with
    | some (FileJson.manifestDoc _) => false
    | _ => true)

/-- The warnings printed by a manifest load: one per listed id whose
export file is absent, in manifest order. -/
def manifestWarnings (fs : FileSystem) (data_dir : String) (ids : List String) : List String :=
  (ids.filter (fun sid => (fsLookup fs (sessionFilePath data_dir sid)).isNone)).map
    (fun sid => "Warning: Could not load session " ++ sid)

/-- The sessions a manifest load appends: the successfully found entries,
in manifest order, unresolvable entries skipped. -/
def manifestSessions (fs : FileSystem) (data_dir : String) (ids : List String) : List Session :=
  ids.filterMap (fun sid =>
    match fsLookup fs (sessionFilePath data_dir sid) with
    | some (FileJson.sessionDoc data info) =>
        some { session_id := sid, data := data, info := info }
    | _ => none)

/-- C7: for every session id whose export file
`<exports_dir>/<session_id>_huggingface.json` does not exist,
`load_session` fails with a not-found error identifying the missing path
and leaves the internal session sequence unchanged. -/
theorem load_session_not_found (ds : RobotLearningDataset) (fs : FileSystem) (sid : String)
    (h : fsLookup fs (sessionFilePath ds.data_dir sid) = none) :
    ds.load_session fs sid
      = (Except.error (LoadError.fileNotFound
          ("Session export not found: " ++ sessionFilePath ds.data_dir sid)), ds) := by
  simp only [RobotLearningDataset.load_session, h]

/-- A freshly constructed aggregator over the default data directory. -/
def freshDs : RobotLearningDataset := { data_dir := "../data", sessions := [] }

/-- Witness for `load_session_not_found` on the empty filesystem. -/
theorem load_session_not_found_witness :
    fsLookup [] (sessionFilePath freshDs.data_dir "s1") = none ∧
    freshDs.load_session [] "s1"
      = (Except.error (LoadError.fileNotFound
          ("Session export not found: " ++ sessionFilePath freshDs.data_dir "s1")), freshDs) :=
  ⟨rfl, load_session_not_found freshDs [] "s1" rfl⟩

lemma loadManifestLoop_spec (fs : FileSystem) :
    ∀ (ids : List String) (ds : RobotLearningDataset) (warnings : List String),
      wellFormedSessionFiles fs ds.data_dir ids = true →
      loadManifestLoop fs ds ids warnings
        = (Except.ok (warnings ++ manifestWarnings fs ds.data_dir ids),
           { ds with sessions := ds.sessions ++ manifestSessions fs ds.data_dir ids }) := by
  intro ids
  induction ids with
  | nil =>
      intro ds warnings _
      simp [loadManifestLoop, manifestWarnings, manifestSessions]
  | cons sid rest ih =>
      intro ds warnings h
      rw [wellFormedSessionFiles, List.all_cons, Bool.and_eq_true] at h
      obtain ⟨hhead, htail⟩ := h
      cases hfs : fsLookup fs (sessionFilePath ds.data_dir sid) with
      | none =>
          rw [loadManifestLoop, load_session_not_found ds fs sid hfs]
          show loadManifestLoop fs ds rest
              (warnings ++ ["Warning: Could not load session " ++ sid]) = _
          rw [ih ds _ htail]
          simp [manifestWarnings, manifestSessions, List.filter_cons, List.filterMap_cons, hfs]
      | some doc =>
          cases doc with
          | manifestDoc ms =>
              rw [hfs] at hhead
              simp at hhead
          | sessionDoc data info =>
              rw [loadManifestLoop]
              have hload : ds.load_session fs sid
                  = (Except.ok (),
                     { ds with sessions := ds.sessions ++
                         [{ session_id := sid, data := data, info := info }] }) := by
                simp only [RobotLearningDataset.load_session, hfs]
              rw [hload]
              show loadManifestLoop fs
                  { data_dir := ds.data_dir,
                    sessions := ds.sessions ++
                      [{ session_id := sid, data := data, info := info }] }
                  rest warnings = _
              rw [ih { data_dir := ds.data_dir,
                       sessions := ds.sessions ++
                         [{ session_id := sid, data := data, info := info }] }
                   warnings htail]
              simp [manifestWarnings, manifestSessions, List.filter_cons,
                List.filterMap_cons, hfs]

/-- C6: loading from the manifest fails with a not-found error when the
manifest file itself is missing; otherwise each listed session whose
export file is missing is caught and reported as a warning, loading
continues, and afterwards the aggregator holds exactly the sessions that
were found, in manifest order with unresolvable entries skipped. -/
theorem load_from_manifest_spec (ds : RobotLearningDataset) (fs : FileSystem) :
    (fsLookup fs (manifestFilePath ds.data_dir) = none →
      ds.load_from_manifest fs
        = (Except.error (LoadError.fileNotFound
            ("Dataset manifest not found: " ++ manifestFilePath ds.data_dir)), ds)) ∧
    (∀ ids : List String,
      fsLookup fs (manifestFilePath ds.data_dir) = some (FileJson.manifestDoc ids) →
      wellFormedSessionFiles fs ds.data_dir ids = true →
      ds.load_from_manifest fs
        = (Except.ok (manifestWarnings fs ds.data_dir ids),
           { ds with sessions := ds.sessions ++ manifestSessions fs ds.data_dir ids })) := by
  constructor
  · intro h
    simp only [RobotLearningDataset.load_from_manifest, h]
  · intro ids hman hwf
    simp only [RobotLearningDataset.load_from_manifest, hman]
    simpa using loadManifestLoop_spec fs ids ds [] hwf

/-- The spec's manifest scenario: `s1` and `s3` exports present, `s2`
absent, manifest listing all three. -/
def scenarioFs : FileSystem :=
  [ (sessionFilePath "../data" "s1", FileJson.sessionDoc [exampleMsg1] []),
    (sessionFilePath "../data" "s3", FileJson.sessionDoc [exampleMsg2] []),
    (manifestFilePath "../data", FileJson.manifestDoc ["s1", "s2", "s3"]) ]

/-- Witness for `load_from_manifest_spec`: the s1/s2/s3 scenario yields a
collection holding s1 and s3 only, a warning for s2, and no fatal
error. -/
theorem load_from_manifest_spec_witness :
    fsLookup scenarioFs (manifestFilePath freshDs.data_dir)
        = some (FileJson.manifestDoc ["s1", "s2", "s3"]) ∧
    wellFormedSessionFiles scenarioFs freshDs.data_dir ["s1", "s2", "s3"] = true ∧
    freshDs.load_from_manifest scenarioFs
      = (Except.ok ["Warning: Could not load session s2"],
         { data_dir := "../data",
           sessions := [
             { session_id := "s1", data := [exampleMsg1], info := [] },
             { session_id := "s3", data := [exampleMsg2], info := [] } ] }) := by
  refine ⟨by decide, by decide, ?_⟩
  rw [(load_from_manifest_spec freshDs scenarioFs).2 ["s1", "s2", "s3"] (by decide) (by decide)]
  rfl

lemma lookupCol_dictInsert {β : Type} (k : String) (v : β) (q : String) :
    ∀ d : List (String × β),
      lookupCol (dictInsert d k v) q =
        if k == q then some v else lookupCol d q := by
  intro d
  induction d with
  | nil => rfl
  | cons kv rest ih =>
      obtain ⟨k0, v0⟩ := kv
      by_cases h0 : k0 = k
      · subst h0
        have hd : dictInsert ((k0, v0) :: rest) k0 v = (k0, v) :: rest := by
          simp [dictInsert]
        rw [hd]
        by_cases hq : k0 = q
        · have hbe : (k0 == q) = true := beq_iff_eq.mpr hq
          simp [lookupCol, hbe]
        · have hbe : (k0 == q) = false := beq_eq_false_iff_ne.mpr hq
          simp [lookupCol, hbe]
      · have hne : (k0 == k) = false := beq_eq_false_iff_ne.mpr h0
        have hd : dictInsert ((k0, v0) :: rest) k v = (k0, v0) :: dictInsert rest k v := by
          simp [dictInsert, hne]
        rw [hd]
        by_cases hq : k0 = q
        · have hbe : (k0 == q) = true := beq_iff_eq.mpr hq
          have hkq : (k == q) = false :=
            beq_eq_false_iff_ne.mpr (fun e => h0 (hq.trans e.symm))
          simp [lookupCol, hbe, hkq]
        · have hbe : (k0 == q) = false := beq_eq_false_iff_ne.mpr hq
          simp [lookupCol, hbe, ih]

lemma label_key_inj (a b : String) (h : "label_" ++ a = "label_" ++ b) : a = b := by
  have hd := congrArg String.data h
  rw [String.data_append, String.data_append] at hd
  exact String.ext (List.append_cancel_left hd)

lemma label_key_beq (a b : String) :
    ("label_" ++ a == "label_" ++ b) = (a == b) := by
  by_cases h : a = b
  · subst h; simp
  · have h2 : ¬("label_" ++ a = "label_" ++ b) := fun e => h (label_key_inj a b e)
    rw [beq_eq_false_iff_ne.mpr h2, beq_eq_false_iff_ne.mpr h]

lemma lookupCol_label_fold (T : String) :
    ∀ (labels : List Label) (d : List (String × Cell)),
      lookupCol (labels.foldl (fun d label =>
          dictInsert d ("label_" ++ label.label_type) (Cell.dataVal label.label_data)) d)
          ("label_" ++ T)
      = labels.foldl
          (fun acc l => if l.label_type == T then some (Cell.dataVal l.label_data) else acc)
          (lookupCol d ("label_" ++ T)) := by
  intro labels
  induction labels with
  | nil => intro d; rfl
  | cons l ls ih =>
      intro d
      rw [List.foldl_cons, List.foldl_cons, ih, lookupCol_dictInsert, label_key_beq]

lemma overwrite_foldl_eq_getLast (T : String) :
    ∀ (labels : List Label) (acc : Option Cell),
      labels.foldl
          (fun acc l => if l.label_type == T then some (Cell.dataVal l.label_data) else acc) acc
      = match (labels.filter (fun l => l.label_type == T)).getLast? with
        | some l => some (Cell.dataVal l.label_data)
        | none => acc := by
  intro labels
  induction labels with
  | nil => intro acc; rfl
  | cons l ls ih =>
      intro acc
      rw [List.foldl_cons, ih, List.filter_cons]
      by_cases hl : (l.label_type == T) = true
      · rw [if_pos hl, if_pos hl]
        cases hfl : ls.filter (fun l => l.label_type == T) with
        | nil => rfl
        | cons x xs =>
            rw [List.getLast?_cons_cons,
              List.getLast?_eq_getLast_of_ne_nil (List.cons_ne_nil x xs)]
      · rw [if_neg hl, if_neg hl]

lemma mem_of_getLast?_some {α : Type} {l : List α} {a : α} (h : l.getLast? = some a) :
    a ∈ l := by
  obtain ⟨hne, heq⟩ := List.mem_getLast?_eq_getLast (show a ∈ l.getLast? by rw [h]; rfl)
  rw [heq]
  exact List.getLast_mem hne

/-- For a label type `T` other than `count`, the `label_<T>` cell of a
message's row is the `label_data` of the last type-`T` label in the
message's label sequence, absent when the message carries none: the
seeded `label_count` entry has a different key. -/
lemma messageToRow_label_lookup (sid : String) (m : Message) (T : String)
    (hT : T ≠ "count") :
    lookupCol (messageToRow sid m).label_cells ("label_" ++ T)
      = ((m.labels.filter (fun l => l.label_type == T)).getLast?).map
          (fun l => Cell.dataVal l.label_data) := by
  show lookupCol (m.labels.foldl
      (fun d label =>
        dictInsert d ("label_" ++ label.label_type) (Cell.dataVal label.label_data))
      (dictInsert [] "label_count" (Cell.countVal m.labels.length)))
      ("label_" ++ T) = _
  rw [lookupCol_label_fold]
  have hseed : lookupCol (dictInsert ([] : List (String × Cell)) "label_count"
      (Cell.countVal m.labels.length)) ("label_" ++ T) = none := by
    have hbe : ("label_count" == "label_" ++ T) = false := by
      have h1 : ("label_count" : String) = "label_" ++ "count" := rfl
      rw [h1, label_key_beq]
      exact beq_eq_false_iff_ne.mpr (fun e => hT e.symm)
    show lookupCol [("label_count", Cell.countVal m.labels.length)] ("label_" ++ T) = none
    simp [lookupCol, hbe]
  rw [hseed, overwrite_foldl_eq_getLast]
  cases hfl : (m.labels.filter (fun l => l.label_type == T)).getLast? <;> simp

/-- The `label_count` cell of a message's row: the label count written
first, unless the message carries labels of type `count`, in which case
the last such label's data overwrote it. -/
lemma messageToRow_label_count_lookup (sid : String) (m : Message) :
    lookupCol (messageToRow sid m).label_cells "label_count"
      = match (m.labels.filter (fun l => l.label_type == "count")).getLast? with
        | some l => some (Cell.dataVal l.label_data)
        | none => some (Cell.countVal m.labels.length) := by
  show lookupCol (m.labels.foldl
      (fun d label =>
        dictInsert d ("label_" ++ label.label_type) (Cell.dataVal label.label_data))
      (dictInsert [] "label_count" (Cell.countVal m.labels.length)))
      ("label_" ++ "count") = _
  rw [lookupCol_label_fold]
  have hseed : lookupCol (dictInsert ([] : List (String × Cell)) "label_count"
      (Cell.countVal m.labels.length)) ("label_" ++ "count")
      = some (Cell.countVal m.labels.length) := by
    show lookupCol [("label_count", Cell.countVal m.labels.length)] ("label_" ++ "count") = _
    have hbe : ("label_count" == "label_" ++ "count") = true := by decide
    simp [lookupCol, hbe]
  rw [hseed, overwrite_foldl_eq_getLast]

/-- A message carrying two labels of the same type, the second one later
in sequence. -/
def exampleDupMsg : Message :=
  { id := "m3", command := "turn left", sender := "scientist",
    timestamp := "2024-01-01T00:00:02", video_frame_id := some "f42",
    labels := [{ label_type := "quality", label_data := "bad" },
               { label_type := "quality", label_data := "good" }] }

/-- A message carrying two labels of type `count`, colliding with the
`label_count` column. -/
def exampleCountMsg : Message :=
  { id := "m5", command := "collide", sender := "scientist",
    timestamp := "2024-01-01T00:00:03", video_frame_id := none,
    labels := [{ label_type := "count", label_data := "first" },
               { label_type := "count", label_data := "second" }] }

/-- C10 counterexample: a message carrying two labels of type `count`
ends with its `label_count` cell holding the second label's data, not the
label count 2 — "label_count still counts all labels" fails inside the
claim's own two-same-type-labels scope. -/
theorem later_labels_count_counterexample :
    exampleCountMsg.labels.length = 2 ∧
    lookupCol (messageToRow "s1" exampleCountMsg).label_cells "label_count"
      = some (Cell.dataVal "second") ∧
    lookupCol (messageToRow "s1" exampleCountMsg).label_cells "label_count"
      ≠ some (Cell.countVal exampleCountMsg.labels.length) :=
  ⟨by decide, by decide, by decide⟩

/-- C10 (amended): when a message carries several labels of the same
type, the row's `label_<type>` cell holds the `label_data` of the last
such label (later assignments overwrite earlier ones, the earlier values
unrepresented), and `label_count` still counts all labels provided the
message carries no label of type `count` — such a label names the
`label_count` key and its data overwrites the count; concretely, a
`bad`-then-`good` pair of `quality` labels yields cell `good` and count
2. -/
theorem later_labels_overwrite (sid : String) (m : Message) (T : String) :
    (T ≠ "count" →
      lookupCol (messageToRow sid m).label_cells ("label_" ++ T)
        = ((m.labels.filter (fun l => l.label_type == T)).getLast?).map
            (fun l => Cell.dataVal l.label_data)) ∧
    lookupCol (messageToRow sid m).label_cells "label_count"
      = (match (m.labels.filter (fun l => l.label_type == "count")).getLast? with
         | some l => some (Cell.dataVal l.label_data)
         | none => some (Cell.countVal m.labels.length)) ∧
    ((∀ l ∈ m.labels, l.label_type ≠ "count") →
      lookupCol (messageToRow sid m).label_cells "label_count"
        = some (Cell.countVal m.labels.length)) ∧
    lookupCol (messageToRow "s1" exampleDupMsg).label_cells ("label_" ++ "quality")
      = some (Cell.dataVal "good") ∧
    lookupCol (messageToRow "s1" exampleDupMsg).label_cells "label_count"
      = some (Cell.countVal 2) := by
  refine ⟨fun hT => messageToRow_label_lookup sid m T hT,
    messageToRow_label_count_lookup sid m, ?_, by decide, by decide⟩
  intro hnone
  rw [messageToRow_label_count_lookup sid m]
  have hfil : m.labels.filter (fun l => l.label_type == "count") = [] := by
    rw [List.filter_eq_nil_iff]
    intro l hl
    simpa using hnone l hl
  rw [hfil]
  rfl

/-- Witness for `later_labels_overwrite` at the duplicate-`quality`
message. -/
theorem later_labels_overwrite_witness :
    ("quality" : String) ≠ "count" ∧
    lookupCol (messageToRow "s1" exampleDupMsg).label_cells ("label_" ++ "quality")
      = ((exampleDupMsg.labels.filter (fun l => l.label_type == "quality")).getLast?).map
          (fun l => Cell.dataVal l.label_data) :=
  ⟨by decide, (later_labels_overwrite "s1" exampleDupMsg "quality").1 (by decide)⟩

/-- C8 counterexample: a row of the concrete collection's projection
whose message carries one `quality` label and no `count` label still has
its `label_<T>` column for `T = "count"` — the `label_count` column —
populated, by the count, refuting the claimed populated-exactly-iff at
`T = "count"`. -/
theorem label_columns_counterexample :
    messageToRow "s1" exampleMsg1 ∈ exampleS1Collection.to_dataframe ∧
    (lookupCol (messageToRow "s1" exampleMsg1).label_cells ("label_" ++ "count")).isSome
      = true ∧
    ¬ ∃ l ∈ exampleMsg1.labels, l.label_type = "count" :=
  ⟨by decide, by decide, by decide⟩

/-- C8 (amended): every row of the tabular projection comes from one
message, and for every label type `T` other than `count` its `label_<T>`
cell is populated exactly when that message carries a label of type `T`,
the populated value being the `label_data` of such a label; rows of
messages without a type-`T` label leave the cell absent.  (For `T =
"count"` the column name collides with the fixed `label_count` column,
which is populated on every row.) -/
theorem label_columns_spec (ds : RobotLearningDataset) (row : Row)
    (hrow : row ∈ ds.to_dataframe) :
    ∃ s ∈ ds.sessions, ∃ m ∈ s.data, row = messageToRow s.session_id m ∧
      ∀ T : String, T ≠ "count" →
        ((lookupCol row.label_cells ("label_" ++ T)).isSome
            ↔ ∃ l ∈ m.labels, l.label_type = T) ∧
        (∀ v : Cell, lookupCol row.label_cells ("label_" ++ T) = some v →
          ∃ l ∈ m.labels, l.label_type = T ∧ v = Cell.dataVal l.label_data) := by
  rw [to_dataframe_eq_flatMap, List.mem_flatMap] at hrow
  obtain ⟨s, hs, hrow⟩ := hrow
  rw [List.mem_map] at hrow
  obtain ⟨m, hm, rfl⟩ := hrow
  refine ⟨s, hs, m, hm, rfl, ?_⟩
  intro T hT
  have hval := messageToRow_label_lookup s.session_id m T hT
  constructor
  · rw [hval, Option.isSome_map', List.getLast?_isSome]
    constructor
    · intro hne
      obtain ⟨l, hl⟩ := List.exists_mem_of_ne_nil _ hne
      rw [List.mem_filter] at hl
      exact ⟨l, hl.1, by simpa using hl.2⟩
    · rintro ⟨l, hl, hlt⟩
      intro hemp
      rw [List.filter_eq_nil_iff] at hemp
      exact hemp l hl (by simp [hlt])
  · intro v hv
    rw [hval] at hv
    cases hfl : (m.labels.filter (fun l => l.label_type == T)).getLast? with
    | none => rw [hfl] at hv; simp at hv
    | some l =>
        rw [hfl] at hv
        simp only [Option.map_some', Option.some.injEq] at hv
        have hlmem := mem_of_getLast?_some hfl
        rw [List.mem_filter] at hlmem
        exact ⟨l, hlmem.1, by simpa using hlmem.2, hv.symm⟩

/-- Witness for `label_columns_spec` at a concrete row of the concrete
collection. -/
theorem label_columns_spec_witness :
    messageToRow "s1" exampleMsg1 ∈ exampleS1Collection.to_dataframe ∧
    ∃ s ∈ exampleS1Collection.sessions, ∃ m ∈ s.data,
      messageToRow "s1" exampleMsg1 = messageToRow s.session_id m ∧
      ∀ T : String, T ≠ "count" →
        ((lookupCol (messageToRow "s1" exampleMsg1).label_cells ("label_" ++ T)).isSome
            ↔ ∃ l ∈ m.labels, l.label_type = T) ∧
        (∀ v : Cell,
          lookupCol (messageToRow "s1" exampleMsg1).label_cells ("label_" ++ T) = some v →
          ∃ l ∈ m.labels, l.label_type = T ∧ v = Cell.dataVal l.label_data) :=
  ⟨by decide,
    label_columns_spec exampleS1Collection (messageToRow "s1" exampleMsg1) (by decide)⟩

/-- The linear congruential step driving the modelled shuffle. -/
def lcgNext (s : Nat) : Nat := (s * 1664525 + 1013904223) % 4294967296

/-- Seeded Fisher–Yates-style selection with explicit fuel (the list
length): pick the element at `s mod length`, recurse on the rest with the
next generator state. -/
def shuffleGo {α : Type} : Nat → Nat → List α → List α
  | 0, _, l => l
  | fuel + 1, s, l =>
      match l with
      | [] => []
      | x :: xs =>
          (x :: xs).get ⟨s % (x :: xs).length, Nat.mod_lt _ (Nat.succ_pos xs.length)⟩ ::
            shuffleGo fuel (lcgNext s) ((x :: xs).eraseIdx (s % (x :: xs).length))

/-- A deterministic seeded permutation of a list. -/
def shuffle {α : Type} (s : Nat) (l : List α) : List α := shuffleGo l.length s l

lemma get_cons_eraseIdx_perm {α : Type} (l : List α) (i : Nat) (h : i < l.length) :
    List.Perm (l.get ⟨i, h⟩ :: l.eraseIdx i) l := by
  rw [List.eraseIdx_eq_take_drop_succ]
  conv_rhs => rw [← List.take_append_drop i l]
  have hd : l.get ⟨i, h⟩ :: l.drop (i + 1) = l.drop i := by
    simp [List.getElem_cons_drop l i h]
  conv_rhs => rw [← hd]
  exact List.perm_middle.symm

lemma shuffleGo_perm {α : Type} :
    ∀ (fuel s : Nat) (l : List α), List.Perm (shuffleGo fuel s l) l := by
  intro fuel
  induction fuel with
  | zero => intro s l; rfl
  | succ n ih =>
      intro s l
      cases l with
      | nil => rfl
      | cons x xs =>
          exact ((ih (lcgNext s) _).cons _).trans
            (get_cons_eraseIdx_perm (x :: xs) (s % (x :: xs).length)
              (Nat.mod_lt _ (Nat.succ_pos xs.length)))

lemma shuffle_perm {α : Type} (s : Nat) (l : List α) : List.Perm (shuffle s l) l :=
  shuffleGo_perm l.length s l

/-- Modelled from the spec: the partitioning routine backing
`split_train_test` is scikit-learn's `train_test_split`, an external
library whose code is not part of this repository.  Per the spec it
materialises the rows, permutes them deterministically from the seed
(the unseeded case is modelled with seed 0), and splits them into two
disjoint sets with the routine's rounding convention
`n_test = ceil(test_size * n)`; the test rows are the first `n_test` of
the permutation and the train rows the rest, returned as
(train, test). -/
def train_test_split {α : Type} (rows : List α) (test_size : ℚ)
    (random_state : Option Nat) : List α × List α :=
  let n_test := (Int.ceil (test_size * (rows.length : ℚ))).toNat
  let shuffled := shuffle (random_state.getD 0) rows
  (shuffled.drop n_test, shuffled.take n_test)

/-- `split_train_test`: materialise the tabular projection and hand it to
the partitioning routine with the given fraction and seed. -/
def RobotLearningDataset.split_train_test (ds : RobotLearningDataset)
    (test_size : ℚ) (random_state : Option Nat) : List Row × List Row :=
  let df := ds.to_dataframe
  train_test_split df test_size random_state

/-- C9: `split_train_test` partitions the rows of the tabular projection
into two disjoint sets — test and train together are a permutation of the
projection — sized by the test fraction (`ceil(q·n)` test rows, the rest
train); the split is a function of the projection, fraction and seed
alone, so two runs with the same seed on the same collection produce the
identical partition, and 100 rows with `test_size = 0.2` yield 80 train
and 20 test rows. -/
theorem split_train_test_spec (ds : RobotLearningDataset) (q : ℚ) (seed : Option Nat)
    (h0 : 0 ≤ q) (h1 : q ≤ 1) :
    List.Perm ((ds.split_train_test q seed).2 ++ (ds.split_train_test q seed).1)
      ds.to_dataframe ∧
    (ds.split_train_test q seed).2.length
      = (Int.ceil (q * (ds.to_dataframe.length : ℚ))).toNat ∧
    (ds.split_train_test q seed).1.length
      = ds.to_dataframe.length - (Int.ceil (q * (ds.to_dataframe.length : ℚ))).toNat ∧
    (∀ ds2 : RobotLearningDataset, ds.to_dataframe = ds2.to_dataframe →
      ds.split_train_test q seed = ds2.split_train_test q seed) ∧
    (ds.to_dataframe.length = 100 → q = 1 / 5 →
      (ds.split_train_test q seed).1.length = 80 ∧
      (ds.split_train_test q seed).2.length = 20) := by
  set n := ds.to_dataframe.length with hn
  have hsl : (shuffle ((seed).getD 0) ds.to_dataframe).length = n :=
    (shuffle_perm _ _).length_eq
  have hceil : (Int.ceil (q * (n : ℚ))).toNat ≤ n := by
    have hle : q * (n : ℚ) ≤ (n : ℚ) := by
      calc q * (n : ℚ) ≤ 1 * (n : ℚ) :=
            mul_le_mul_of_nonneg_right h1 (by positivity)
        _ = (n : ℚ) := one_mul _
    have h2 : Int.ceil (q * (n : ℚ)) ≤ Int.ceil ((n : ℚ)) := Int.ceil_le_ceil hle
    rw [Int.ceil_natCast] at h2
    calc (Int.ceil (q * (n : ℚ))).toNat ≤ ((n : ℤ)).toNat := Int.toNat_le_toNat h2
      _ = n := Int.toNat_natCast n
  have htest : (ds.split_train_test q seed).2.length
      = (Int.ceil (q * (n : ℚ))).toNat := by
    show ((shuffle ((seed).getD 0) ds.to_dataframe).take _).length = _
    rw [List.length_take, hsl]
    exact Nat.min_eq_left hceil
  have htrain : (ds.split_train_test q seed).1.length
      = n - (Int.ceil (q * (n : ℚ))).toNat := by
    show ((shuffle ((seed).getD 0) ds.to_dataframe).drop _).length = _
    rw [List.length_drop, hsl]
  refine ⟨?_, htest, htrain, ?_, ?_⟩
  · show List.Perm ((shuffle ((seed).getD 0) ds.to_dataframe).take _ ++
        (shuffle ((seed).getD 0) ds.to_dataframe).drop _) ds.to_dataframe
    rw [List.take_append_drop]
    exact shuffle_perm _ _
  · intro ds2 heq
    show train_test_split ds.to_dataframe q seed = train_test_split ds2.to_dataframe q seed
    rw [heq]
  · intro h100 hq
    have hv : (Int.ceil (q * (n : ℚ))).toNat = 20 := by
      rw [hq, h100]
      norm_num
      rfl
    constructor
    · rw [htrain, hv, h100]
    · rw [htest, hv]

/-- Witness for `split_train_test_spec` at a concrete five-row
collection. -/
theorem split_train_test_spec_witness :
    (0 : ℚ) ≤ 1 / 5 ∧ (1 / 5 : ℚ) ≤ 1 ∧
    (exampleS1Collection.split_train_test (1 / 5) (some 42)).2.length
      = (Int.ceil ((1 / 5 : ℚ) * (exampleS1Collection.to_dataframe.length : ℚ))).toNat := by
  have h := split_train_test_spec exampleS1Collection (1 / 5) (some 42)
    (by norm_num) (by norm_num)
  exact ⟨by norm_num, by norm_num, h.2.1⟩

end Robosite
